import Mathlib

/-!
Verification of the uds-cli bundle deployment orchestrator against its
natural-language specification.

The development shallowly embeds the decision-making code of the repository:

* `downloadPkgFromRemoteBundle` and `LoadPackage` from the remote-bundle
  package source (`src/pkg/bundle/sources`, the `sources` Go package):
  layer verification, partial-package detection and the fetch pipeline.
* The bubbletea TUI deployment state machine `Model.Update` from
  `src/pkg/bundle/tui/tui.go`, together with `GetDeployedPackage` and the
  deploy command wiring from the `cmd` Go package.

Go machine integers are modelled as `Int` (no overflow is reachable in the
embedded code paths), Go `float64` percentages as `ℚ` (every percentage the
claims touch is exactly representable), Go panics and runtime errors as the
`Except GoErr` monad, and external collaborators (the OCI remote, the content
cache, the k8s secret store, the caller-supplied component filter) as explicit
function parameters.
-/

namespace UDS

/-- Go runtime failures that the embedded code can raise: an out-of-range
slice index, and the explicit `panic(0)` found in `GetDeployedPackage`. -/
inductive GoErr
  | indexOutOfRange
  | panicZero
deriving DecidableEq, Repr

/-- Go slice indexing `xs[i]` with an `int` index: out-of-range (including
negative) indices panic. -/
def goGet {α : Type} (xs : List α) (i : Int) : Except GoErr α :=
  if h : 0 ≤ i ∧ i.toNat < xs.length then Except.ok (xs.get ⟨i.toNat, h.2⟩)
  else Except.error GoErr.indexOutOfRange

/-- Bounds check for a Go slice access whose element value the embedding does
not need (method calls such as `SetPercent` or spinner-style assignment on
`m.progressBars[i]` / `m.spinners[i]`): panics exactly when `xs[i]` would. -/
def checkIndex (len : Nat) (i : Int) : Except GoErr Unit :=
  if 0 ≤ i ∧ i.toNat < len then Except.ok () else Except.error GoErr.indexOutOfRange

/-- A layer descriptor of the package manifest (`ocispec.Descriptor`):
digest, size, annotated title, and the result of the remote existence check
`r.Remote.Repo().Blobs().Exists(ctx, layer)` for this run (the error return
of that call aborts the fetch and is outside the embedded claims). -/
structure Layer where
  digest : String
  size : Int
  title : String
  presentRemote : Bool
deriving DecidableEq, Repr

/-- An entry of `layersToPull` / `layersInBundle`: the package-manifest
descriptor that seeds both slices, or a content layer. -/
inductive LayerRef
  | manifestDesc
  | content (layer : Layer)
deriving DecidableEq, Repr

/-- A progress event sent on the TUI channel by the fetcher
(`deploy.Program.Send("verifying:<pct>")`). The Go code formats
`int64(percVerified)` of a `float64`; we record the exact rational the
formula computes. Download-progress events are produced by the concurrent
`oras.Copy` callback and are not modelled (no claim concerns them). -/
inductive FetchEvent
  | verifying (pct : ℚ)
deriving DecidableEq, Repr

/-- Accumulated results of the layer-verification loop of
`downloadPkgFromRemoteBundle` (part_001 lines 194-218). -/
structure VerifyAcc where
  events : List FetchEvent
  inBundle : List LayerRef
  toPull : List LayerRef
  estBytes : Int
deriving DecidableEq, Repr

/-- The verification loop body, one iteration per manifest layer:
`numLayersVerified` increments for every layer checked; only when the layer
exists remotely is a `verifying` event sent with percentage
`numLayersVerified / len(pkgManifest.Layers) * 100`, the layer recorded in
`layersInBundle`, its size added to `estimatedBytes`, and the layer either
served from cache (title contains the blobs dir and the digest is cached) or
queued in `layersToPull`. `titleHasBlobsDir` embeds
`strings.Contains(layer.Annotations[AnnotationTitle], config.BlobsDir)` and
`cacheExists` embeds `cache.Exists(digest)`; `cache.Use` only copies bytes
(its error return aborts the fetch and is outside the embedded claims). -/
def verifyLoop (total : Nat) (titleHasBlobsDir cacheExists : String → Bool)
    (numVerified : Nat) : List Layer → VerifyAcc
  | [] => { events := [], inBundle := [], toPull := [], estBytes := 0 }
  | layer :: rest =>
    let nv := numVerified + 1
    if layer.presentRemote then
      let acc := verifyLoop total titleHasBlobsDir cacheExists nv rest
      { events := FetchEvent.verifying ((nv : ℚ) / (total : ℚ) * 100) :: acc.events,
        inBundle := LayerRef.content layer :: acc.inBundle,
        toPull := if titleHasBlobsDir layer.title && cacheExists layer.digest
                  then acc.toPull else LayerRef.content layer :: acc.toPull,
        estBytes := layer.size + acc.estBytes }
    else verifyLoop total titleHasBlobsDir cacheExists nv rest

/-- Result of `downloadPkgFromRemoteBundle`. -/
structure DownloadOut where
  events : List FetchEvent
  layersInBundle : List LayerRef
  layersToPull : List LayerRef
  estimatedBytes : Int
  isPartial : Bool
deriving DecidableEq, Repr

/-- `downloadPkgFromRemoteBundle` (part_001 lines 167-251), from the point
where the package manifest has been fetched (`layers` are
`pkgManifest.Layers`; the earlier fetch-root / locate / fetch-manifest error
returns are outside the embedded claims). Both `layersToPull` and
`layersInBundle` start with the package-manifest descriptor; after the copy,
`r.isPartial` is set when `len(pkgManifest.Layers) != len(layersInBundle)-1`. -/
def downloadPkgFromRemoteBundle (layers : List Layer)
    (titleHasBlobsDir cacheExists : String → Bool) : DownloadOut :=
  let acc := verifyLoop layers.length titleHasBlobsDir cacheExists 0 layers
  let inBundle := LayerRef.manifestDesc :: acc.inBundle
  { events := acc.events,
    layersInBundle := inBundle,
    layersToPull := LayerRef.manifestDesc :: acc.toPull,
    estimatedBytes := acc.estBytes,
    isPartial := decide (layers.length ≠ inBundle.length - 1) }

/-- Numbers a list starting from `n`; `numberFrom 1 layers` pairs each layer
with the value `numLayersVerified` has just after that layer's existence
check. -/
def numberFrom {α : Type} (n : Nat) : List α → List (Nat × α)
  | [] => []
  | a :: l => (n, a) :: numberFrom (n + 1) l

lemma verifyLoop_events (titleHasBlobsDir cacheExists : String → Bool)
    (total : Nat) :
    ∀ (ls : List Layer) (k : Nat),
      (verifyLoop total titleHasBlobsDir cacheExists k ls).events =
        (numberFrom (k + 1) ls).filterMap (fun p =>
          if p.2.presentRemote
          then some (FetchEvent.verifying ((p.1 : ℚ) / (total : ℚ) * 100))
          else none) := by
  intro ls
  induction ls with
  | nil => intro k; rfl
  | cons a rest ih =>
    intro k
    by_cases h : a.presentRemote = true
    · simp [verifyLoop, numberFrom, h, ih (k + 1)]
    · simp at h
      simp [verifyLoop, numberFrom, h, ih (k + 1)]

lemma verifyLoop_inBundle (titleHasBlobsDir cacheExists : String → Bool)
    (total : Nat) :
    ∀ (ls : List Layer) (k : Nat),
      (verifyLoop total titleHasBlobsDir cacheExists k ls).inBundle =
        (ls.filter (fun l => l.presentRemote)).map LayerRef.content := by
  intro ls
  induction ls with
  | nil => intro k; rfl
  | cons a rest ih =>
    intro k
    by_cases h : a.presentRemote = true
    · simp [verifyLoop, h, ih (k + 1)]
    · simp at h
      simp [verifyLoop, h, ih (k + 1)]

/-- C1 (amended): in `downloadPkgFromRemoteBundle`, a `verifying` progress
event is emitted only after existence checks that confirm the layer present
in the remote, and its percentage is the number of layers checked so far
(present or not) divided by the total number of layers declared in the
manifest, times 100. -/
theorem C1_amended (layers : List Layer)
    (titleHasBlobsDir cacheExists : String → Bool) :
    (downloadPkgFromRemoteBundle layers titleHasBlobsDir cacheExists).events =
      (numberFrom 1 layers).filterMap (fun p =>
        if p.2.presentRemote
        then some (FetchEvent.verifying ((p.1 : ℚ) / (layers.length : ℚ) * 100))
        else none) := by
  unfold downloadPkgFromRemoteBundle
  simpa using verifyLoop_events titleHasBlobsDir cacheExists layers.length layers 0

def shaA : String := "sha-a"
def shaB : String := "sha-b"
def titleT : String := "layer.tar"

/-- A layer confirmed present in the remote. -/
def layerA : Layer := { digest := shaA, size := 5, title := titleT, presentRemote := true }

/-- An optional layer absent from the remote. -/
def layerB : Layer := { digest := shaB, size := 3, title := titleT, presentRemote := false }

/-- An empty content cache. -/
def noCache : String → Bool := fun _ => false

/-- C1 (counterexample): for a manifest declaring two layers of which only the
first exists in the remote, the code emits a single `verifying` event (none
after the second layer's existence check, contradicting "for every layer
declared ... a VerificationProgress event is emitted"), and that event's
percentage is 50 = 1/2 x 100 (checked over layers declared), not
100 = 1/1 x 100 (checked over confirmed-present candidates) as the claim
states. -/
theorem C1_counterexample :
    (downloadPkgFromRemoteBundle [layerA, layerB] noCache noCache).events =
        [FetchEvent.verifying 50] ∧
    [layerA, layerB].length = 2 ∧
    ([layerA, layerB].filter (fun l => l.presentRemote)).length = 1 ∧
    ¬ ((50 : ℚ) = 1 / 1 * 100) := by
  refine ⟨?_, rfl, by decide, by norm_num⟩
  show (downloadPkgFromRemoteBundle [layerA, layerB] noCache noCache).events = _
  unfold downloadPkgFromRemoteBundle
  norm_num [verifyLoop, layerA, layerB, noCache]

/-- A Zarf package as read from `zarf.yaml`: its metadata name and component
list (only the fields the embedded claims touch). -/
structure ZarfPackage where
  name : String
  components : List String
deriving DecidableEq, Repr

/-- One step of the `LoadPackage` fetch pipeline, in source-statement order. -/
inductive LoadStep
  | download
  | readPkgYaml
  | applyFilter
  | sendTotalComponents (n : Nat)
  | setFromLayers
  | validatePkg ( flaggedPartial : Bool)
  | overrideName
deriving DecidableEq, BEq, Repr

/-- Modelled from the spec: `sources.ValidatePackageIntegrity` is provided by
the external Zarf packaging library, not by this repository. Per the spec
(section 4.2 step 7), validation checks the aggregate checksum of all
retrieved content strictly, "unless the package is marked partial, in which
case validation tolerates the expected absence of unfetched optional layers".
`checksumsMatch` is the hash comparison of the content actually present;
`allLayersPresent` says no declared layer is missing locally. -/
def ValidatePackageIntegrity (checksumsMatch allLayersPresent flaggedPartial : Bool) : Bool :=
  checksumsMatch && (allLayersPresent || flaggedPartial)

/-- `LoadPackage` (part_001 lines 44-96): download the package from the
remote bundle, read `zarf.yaml` (its result is the oracle `pkgYaml`; the read
error return is outside the embedded claims), apply the caller-supplied
component filter, send the `totalComponents` event, set the layout from the
downloaded layers, validate package integrity with the partial flag computed
by the download, and finally override the package name with the bundle's
name for it. The returned trace records the pipeline steps in statement
order; `none` models the error returns (filter failure, failed validation).
The `unarchiveAll` block only unpacks component tarballs and is outside the
embedded claims. -/
def LoadPackage (pkgName : String) (layers : List Layer)
    (titleHasBlobsDir cacheExists : String → Bool) (pkgYaml : ZarfPackage)
    (filterApply : ZarfPackage → Option (List String)) (checksumsMatch : Bool) :
    Option (ZarfPackage × List LoadStep) :=
  let dl := downloadPkgFromRemoteBundle layers titleHasBlobsDir cacheExists
  match filterApply pkgYaml with
  | none => none
  | some comps =>
    let pkg2 : ZarfPackage := { pkgYaml with components := comps }
    let steps := [LoadStep.download, LoadStep.readPkgYaml, LoadStep.applyFilter,
                  LoadStep.sendTotalComponents comps.length, LoadStep.setFromLayers,
                  LoadStep.validatePkg (DownloadOut.isPartial dl)]
    if ValidatePackageIntegrity checksumsMatch
         (decide (dl.layersInBundle.length - 1 = layers.length))
         (DownloadOut.isPartial dl)
    then some ({ pkg2 with name := pkgName }, steps ++ [LoadStep.overrideName])
    else none

lemma downloadPkg_inBundle_length (layers : List Layer)
    (titleHasBlobsDir cacheExists : String → Bool) :
    (downloadPkgFromRemoteBundle layers titleHasBlobsDir cacheExists).layersInBundle.length =
      1 + (layers.filter (fun l => l.presentRemote)).length := by
  unfold downloadPkgFromRemoteBundle
  simp [verifyLoop_inBundle, Nat.add_comm]

/-- C4: after the copy step, the package is marked partial exactly when the
layers present locally (manifest layer plus confirmed-present layers) are
fewer than the manifest layer plus the declared layer count; that same flag
is the one handed to aggregate-checksum validation; and with matching
checksums, validation never fails merely because declared layers are absent
(the absence forces the partial flag, which the validator tolerates). -/
theorem C4_theorem (pkgName : String) (layers : List Layer)
    (titleHasBlobsDir cacheExists : String → Bool) (pkgYaml : ZarfPackage)
    (filterApply : ZarfPackage → Option (List String))
    (pkg : ZarfPackage) (trace : List LoadStep)
    (h : LoadPackage pkgName layers titleHasBlobsDir cacheExists pkgYaml filterApply true =
          some (pkg, trace)) :
    (DownloadOut.isPartial (downloadPkgFromRemoteBundle layers titleHasBlobsDir cacheExists) = true ↔
      1 + (layers.filter (fun l => l.presentRemote)).length < 1 + layers.length) ∧
    LoadStep.validatePkg
      (DownloadOut.isPartial (downloadPkgFromRemoteBundle layers titleHasBlobsDir cacheExists)) ∈ trace ∧
    ValidatePackageIntegrity true
      (decide ((downloadPkgFromRemoteBundle layers titleHasBlobsDir cacheExists).layersInBundle.length - 1 =
        layers.length))
      (DownloadOut.isPartial (downloadPkgFromRemoteBundle layers titleHasBlobsDir cacheExists)) = true := by
  have hcount := downloadPkg_inBundle_length layers titleHasBlobsDir cacheExists
  have hle : (layers.filter (fun l => l.presentRemote)).length ≤ layers.length :=
    List.length_filter_le _ _
  have hpart : DownloadOut.isPartial (downloadPkgFromRemoteBundle layers titleHasBlobsDir cacheExists) =
      decide (layers.length ≠
        (downloadPkgFromRemoteBundle layers titleHasBlobsDir cacheExists).layersInBundle.length - 1) := by
    rfl
  refine ⟨?_, ?_, ?_⟩
  · rw [hpart, hcount]
    simp only [decide_eq_true_eq]
    omega
  · unfold LoadPackage at h
    rcases hf : filterApply pkgYaml with _ | comps
    · rw [hf] at h; exact absurd h (by simp)
    · rw [hf] at h
      simp only at h
      by_cases hv : ValidatePackageIntegrity true
          (decide ((downloadPkgFromRemoteBundle layers titleHasBlobsDir cacheExists).layersInBundle.length - 1 =
            layers.length))
          (DownloadOut.isPartial (downloadPkgFromRemoteBundle layers titleHasBlobsDir cacheExists)) = true
      · rw [if_pos hv] at h
        have := (Option.some_inj.mp h)
        have htr : trace = [LoadStep.download, LoadStep.readPkgYaml, LoadStep.applyFilter,
            LoadStep.sendTotalComponents comps.length, LoadStep.setFromLayers,
            LoadStep.validatePkg (DownloadOut.isPartial
              (downloadPkgFromRemoteBundle layers titleHasBlobsDir cacheExists))] ++
            [LoadStep.overrideName] := (congrArg Prod.snd this).symm
        rw [htr]
        simp
      · rw [if_neg hv] at h
        exact absurd h (by simp)
  · rw [hpart, hcount]
    unfold ValidatePackageIntegrity
    simp only [Bool.true_and, Bool.or_eq_true, decide_eq_true_eq]
    omega

def nameZ : String := "podinfo"
def compA : String := "comp-a"

/-- A one-component package as read from `zarf.yaml`. -/
def pkgYaml1 : ZarfPackage := { name := nameZ, components := [compA] }

/-- A component filter that keeps every component. -/
def filterAll : ZarfPackage → Option (List String) := fun p => some p.components

/-- C4 (witness): a concrete fetch of a two-layer package with one optional
layer absent: the package is marked partial, the flag reaches validation, and
validation succeeds despite the absence. -/
theorem C4_theorem_witness :
    (DownloadOut.isPartial (downloadPkgFromRemoteBundle [layerA, layerB] noCache noCache) = true ↔
      1 + ([layerA, layerB].filter (fun l => l.presentRemote)).length < 1 + [layerA, layerB].length) ∧
    LoadStep.validatePkg
      (DownloadOut.isPartial (downloadPkgFromRemoteBundle [layerA, layerB] noCache noCache)) ∈
      [LoadStep.download, LoadStep.readPkgYaml, LoadStep.applyFilter,
       LoadStep.sendTotalComponents 1, LoadStep.setFromLayers, LoadStep.validatePkg true,
       LoadStep.overrideName] ∧
    ValidatePackageIntegrity true
      (decide ((downloadPkgFromRemoteBundle [layerA, layerB] noCache noCache).layersInBundle.length - 1 =
        [layerA, layerB].length))
      (DownloadOut.isPartial (downloadPkgFromRemoteBundle [layerA, layerB] noCache noCache)) = true :=
  C4_theorem nameZ [layerA, layerB] noCache noCache pkgYaml1 filterAll
    { name := nameZ, components := [compA] }
    [LoadStep.download, LoadStep.readPkgYaml, LoadStep.applyFilter,
     LoadStep.sendTotalComponents 1, LoadStep.setFromLayers, LoadStep.validatePkg true,
     LoadStep.overrideName] (by decide)

/-- C5 (counterexample): a concrete successful `LoadPackage` run in which the
caller-supplied component filter is applied at pipeline position 2, strictly
before the aggregate-checksum validation at position 5 — contradicting the
claim that validation (step 7) happens before the filter (step 8). -/
theorem C5_counterexample :
    LoadPackage nameZ [layerA] noCache noCache pkgYaml1 filterAll true =
      some ({ name := nameZ, components := [compA] },
        [LoadStep.download, LoadStep.readPkgYaml, LoadStep.applyFilter,
         LoadStep.sendTotalComponents 1, LoadStep.setFromLayers, LoadStep.validatePkg false,
         LoadStep.overrideName]) ∧
    ([LoadStep.download, LoadStep.readPkgYaml, LoadStep.applyFilter,
      LoadStep.sendTotalComponents 1, LoadStep.setFromLayers, LoadStep.validatePkg false,
      LoadStep.overrideName].indexOf LoadStep.applyFilter = 2) ∧
    ([LoadStep.download, LoadStep.readPkgYaml, LoadStep.applyFilter,
      LoadStep.sendTotalComponents 1, LoadStep.setFromLayers, LoadStep.validatePkg false,
      LoadStep.overrideName].indexOf (LoadStep.validatePkg false) = 5) ∧
    ¬ ((5 : Nat) < 2) := by
  refine ⟨by decide, by decide, by decide, by decide⟩

/-- C5 (amended): in every successful `LoadPackage` run, the caller-supplied
component filter is applied strictly before the aggregate-checksum validation
of the retrieved content. -/
theorem C5_amended (pkgName : String) (layers : List Layer)
    (titleHasBlobsDir cacheExists : String → Bool) (pkgYaml : ZarfPackage)
    (filterApply : ZarfPackage → Option (List String)) (checksumsMatch : Bool)
    (pkg : ZarfPackage) (trace : List LoadStep)
    (h : LoadPackage pkgName layers titleHasBlobsDir cacheExists pkgYaml filterApply checksumsMatch =
          some (pkg, trace)) :
    ∃ i j : Nat, i < j ∧ trace.get? i = some LoadStep.applyFilter ∧
      trace.get? j = some (LoadStep.validatePkg
        (DownloadOut.isPartial (downloadPkgFromRemoteBundle layers titleHasBlobsDir cacheExists))) := by
  unfold LoadPackage at h
  rcases hf : filterApply pkgYaml with _ | comps
  · rw [hf] at h; exact absurd h (by simp)
  · rw [hf] at h
    simp only at h
    by_cases hv : ValidatePackageIntegrity checksumsMatch
        (decide ((downloadPkgFromRemoteBundle layers titleHasBlobsDir cacheExists).layersInBundle.length - 1 =
          layers.length))
        (DownloadOut.isPartial (downloadPkgFromRemoteBundle layers titleHasBlobsDir cacheExists)) = true
    · rw [if_pos hv] at h
      have htr : trace = [LoadStep.download, LoadStep.readPkgYaml, LoadStep.applyFilter,
          LoadStep.sendTotalComponents comps.length, LoadStep.setFromLayers,
          LoadStep.validatePkg (DownloadOut.isPartial
            (downloadPkgFromRemoteBundle layers titleHasBlobsDir cacheExists))] ++
          [LoadStep.overrideName] := (congrArg Prod.snd (Option.some_inj.mp h)).symm
      refine ⟨2, 5, by omega, ?_, ?_⟩ <;> rw [htr] <;> rfl
    · rw [if_neg hv] at h
      exact absurd h (by simp)

/-- C5 (amended, witness): the amended ordering at the concrete run of
`C5_counterexample`. -/
theorem C5_amended_witness :
    ∃ i j : Nat, i < j ∧
      ([LoadStep.download, LoadStep.readPkgYaml, LoadStep.applyFilter,
        LoadStep.sendTotalComponents 1, LoadStep.setFromLayers, LoadStep.validatePkg false,
        LoadStep.overrideName].get? i = some LoadStep.applyFilter) ∧
      ([LoadStep.download, LoadStep.readPkgYaml, LoadStep.applyFilter,
        LoadStep.sendTotalComponents 1, LoadStep.setFromLayers, LoadStep.validatePkg false,
        LoadStep.overrideName].get? j = some (LoadStep.validatePkg
          (DownloadOut.isPartial (downloadPkgFromRemoteBundle [layerA] noCache noCache)))) :=
  C5_amended nameZ [layerA] noCache noCache pkgYaml1 filterAll true
    { name := nameZ, components := [compA] }
    [LoadStep.download, LoadStep.readPkgYaml, LoadStep.applyFilter,
     LoadStep.sendTotalComponents 1, LoadStep.setFromLayers, LoadStep.validatePkg false,
     LoadStep.overrideName] (by decide)

def emptyStr : String := ""
def tagPackage : String := "package"
def tagTotalComponents : String := "totalComponents"
def tagTotalPackages : String := "totalPackages"
def tagIdx : String := "idx"
def tagComplete : String := "complete"
def keyYLow : String := "y"
def keyYUp : String := "Y"
def keyNLow : String := "n"
def keyNUp : String := "N"
def keyCtrlC : String := "ctrl+c"
def keyQ : String := "q"
def msgDeployedPre : String := "✅ Package "
def msgDeployedSuf : String := " deployed\n"
def newlineStr : String := "\n"

/-- Rendering width of the TUI (`WIDTH`). -/
def WIDTH : Nat := 50

/-- The separator line `strings.Repeat("─", WIDTH) + "\n"` printed before the
success messages. -/
def dividerLine : String := String.mk (List.replicate WIDTH '─') ++ newlineStr

/-- Models Go `strings.Split(s, ":")` on the character list: the result is
never empty, and has one element exactly when `s` contains no colon. -/
def splitColonChars : List Char → List (List Char)
  | [] => [[]]
  | c :: rest =>
    let r := splitColonChars rest
    if c = ':' then [] :: r
    else
      match r with
      | [] => [[c]]
      | h :: t => (c :: h) :: t

/-- `strings.Split(s, ":")`. -/
def splitColon (s : String) : List String :=
  (splitColonChars s.data).map (fun cs => String.mk cs)

/-- Digit accumulator for `goAtoi`. -/
def parseDigitsAux : List Char → Nat → Option Nat
  | [], acc => some acc
  | c :: rest, acc =>
    if c.isDigit then parseDigitsAux rest (acc * 10 + (c.toNat - 48)) else none

/-- Models Go `strconv.Atoi`: an optional sign followed by at least one
digit; anything else is an error (`none`). -/
def goAtoi (s : String) : Option Int :=
  match s.data with
  | [] => none
  | '-' :: rest =>
    if rest.isEmpty then none else (parseDigitsAux rest 0).map (fun v => -(v : Int))
  | '+' :: rest =>
    if rest.isEmpty then none else (parseDigitsAux rest 0).map (fun v => (v : Int))
  | cs => (parseDigitsAux cs 0).map (fun v => (v : Int))

/-- The deployed-package record from the zarf state secret
(`types.DeployedPackage`): the embedded claims only consume its
`DeployedComponents` list. A `nil` record is `Option.none` at use sites. -/
structure DeployedPackage where
  deployedComponents : List String
deriving DecidableEq, Repr

/-- Embeds `GetDeployedPackage` (tui.go lines 86-99). `secret` describes the
external k8s lookup: `none` when `GetSecret` returns an error (the function
then returns the nil record), `some none` when the secret exists but
`json.Unmarshal` of its data fails — on which the Go code executes
`panic(0)` — and `some (some d)` when the data unmarshals to `d`. -/
def GetDeployedPackage (secret : Option (Option DeployedPackage)) :
    Except GoErr (Option DeployedPackage) :=
  match secret with
  | none => Except.ok none
  | some none => Except.error GoErr.panicZero
  | some (some d) => Except.ok (some d)

/-- `deployedPkg != nil && len(deployedPkg.DeployedComponents) != 0`
(tui.go line 222). -/
def deployedNonNilNonZero : Option DeployedPackage → Bool
  | some dp => dp.deployedComponents.length != 0
  | none => false

/-- `deployedPkg != nil && len(deployedPkg.DeployedComponents) >= 1`
(tui.go line 169). -/
def deployedNonNilAtLeastOne : Option DeployedPackage → Bool
  | some dp => decide (1 ≤ dp.deployedComponents.length)
  | none => false

/-- The TUI `Model` (tui.go lines 47-61). `progressBars` keeps each bar's
target percent in `[0,1]` (the only bubbles progress state the orchestration
reads: `SetPercent` clamps and stores the target, `Percent()` returns it);
`spinnersCount` keeps the length of the spinner slice (spinner frames are
pure rendering). The channels and the bundle client live outside the model
value: a pending fatal-channel message is `TuiState.fatalPending`. -/
structure Model where
  pkgNames : List String
  pkgIdx : Int
  totalComponentsPerPkg : List Int
  totalPkgs : Int
  confirmed : Bool
  complete : List Bool
  done : Bool
  progressBars : List ℚ
  spinnersCount : Nat
deriving DecidableEq, Repr

/-- The run-scoped state surrounding the model: the shared mutable
`resetProgress` package variable, and whether a fatal error is waiting on
`fatalChan`. -/
structure TuiState where
  model : Model
  resetProgress : Bool
  fatalPending : Bool
deriving DecidableEq, Repr

/-- The bubbletea messages `Model.Update` dispatches on: progress
`FrameMsg`, the render `tickMsg`, a key press, the `operation` message that
starts the deploy, and the string progress messages of the wire protocol. -/
inductive Msg
  | frame
  | tick
  | key (s : String)
  | op
  | str (s : String)
deriving DecidableEq, Repr

/-- The commands `Model.Update` returns (flattened `tea.Sequence` /
`tea.Batch` contents): a progress-bar target update, a progress animation
frame, a spinner tick, the next render tick, a printed line, the 500 ms
pause, `tea.Quit`, the message that delivers `DeployOp`, and the closure
that runs `bndlClient.Deploy` concurrently. -/
inductive Cmd
  | setPercent (idx : Int) (pct : ℚ)
  | frameAnim
  | spinnerTick
  | tick
  | println (s : String)
  | pause
  | quit
  | sendDeployOp
  | runDeploy
deriving DecidableEq, Repr

/-- `progress.Model.SetPercent` clamps its argument to `[0,1]`
(`math.Max(0, math.Min(1, p))`). -/
def clamp01 (p : ℚ) : ℚ := max 0 (min 1 p)

/-- The `i := 0; i < total; i++` loop of the success branch (tui.go lines
139-143), reading `m.pkgNames[i]` for each iteration; `fuel` is the number
of remaining iterations. -/
def successNamesLoop (names : List String) : Nat → Int → Except GoErr (List String)
  | 0, _ => Except.ok []
  | fuel + 1, i => do
    let nm ← goGet names i
    let rest ← successNamesLoop names fuel (i + 1)
    Except.ok (nm :: rest)

/-- The names printed by the success branch, in package order `0..totalPkgs-1`. -/
def successNames (names : List String) (total : Int) : Except GoErr (List String) :=
  successNamesLoop names total.toNat 0

/-- The completed branch of the `tickMsg` case (tui.go lines 126-149):
the bar is pushed to 100 %, the spinner shows success, and if the completed
package is the last one the success messages for every package are printed
followed by `tea.Quit`. -/
def completeBranch (st : TuiState) : Except GoErr (TuiState × List Cmd) := do
  let m := st.model
  let _ ← checkIndex m.progressBars.length m.pkgIdx
  let bars := m.progressBars.set m.pkgIdx.toNat (clamp01 100)
  let _ ← checkIndex m.spinnersCount m.pkgIdx
  let progressCmd := Cmd.setPercent m.pkgIdx (clamp01 100)
  if m.pkgIdx = m.totalPkgs - 1 then do
    let names ← successNames m.pkgNames m.totalPkgs
    Except.ok ({ st with model := { m with done := true, progressBars := bars } },
      [progressCmd, Cmd.spinnerTick, Cmd.tick, Cmd.println dividerLine] ++
        names.map (fun nm => Cmd.println (msgDeployedPre ++ nm ++ msgDeployedSuf)) ++
        [Cmd.quit])
  else
    Except.ok ({ st with model := { m with progressBars := bars } },
      [progressCmd, Cmd.spinnerTick])

/-- The else branch of the deployed-state comparison (tui.go lines 166-172):
reset the bar to 0 and clear `resetProgress` once the record again shows at
least one deployed component. -/
def resetBranch (st : TuiState) (deployedPkg : Option DeployedPackage) :
    Except GoErr (List ℚ × Bool × Option Cmd) := do
  let m := st.model
  let _ ← checkIndex m.progressBars.length m.pkgIdx
  let bars := m.progressBars.set m.pkgIdx.toNat (clamp01 0)
  let reset := if deployedNonNilAtLeastOne deployedPkg then false else st.resetProgress
  Except.ok (bars, reset, some (Cmd.setPercent m.pkgIdx (clamp01 0)))

/-- The resume-aware progress computation of the `tickMsg` case (tui.go
lines 151-173): poll the deployed-state record for the current package and
set the bar either to `deployedComponents / totalComponents` or to the reset
baseline. `env` is the external deployed-state query at this instant
(`GetDeployedPackage` restricted to its non-panicking returns). -/
def progressStep (env : String → Option DeployedPackage) (st : TuiState) :
    Except GoErr (List ℚ × Bool × Option Cmd) := do
  let m := st.model
  if (m.totalComponentsPerPkg.length : Int) > m.pkgIdx then do
    let total ← goGet m.totalComponentsPerPkg m.pkgIdx
    if 0 < total then do
      let name ← goGet m.pkgNames m.pkgIdx
      match env name with
      | some dp =>
        if st.resetProgress = false then do
          let _ ← checkIndex m.progressBars.length m.pkgIdx
          let pct := clamp01 ((dp.deployedComponents.length : ℚ) / (total : ℚ))
          let bars := m.progressBars.set m.pkgIdx.toNat pct
          let _ ← (if pct = 1 then checkIndex m.spinnersCount m.pkgIdx else Except.ok ())
          Except.ok (bars, st.resetProgress, some (Cmd.setPercent m.pkgIdx pct))
        else resetBranch st (some dp)
      | none => resetBranch st none
    else Except.ok (m.progressBars, st.resetProgress, none)
  else Except.ok (m.progressBars, st.resetProgress, none)

/-- The not-yet-completed remainder of the `tickMsg` case (tui.go lines
151-182): run the progress computation, keep the spinner spinning when any
spinner exists, and schedule the next tick. -/
def runningBranch (env : String → Option DeployedPackage) (st : TuiState) :
    Except GoErr (TuiState × List Cmd) := do
  let m := st.model
  let r ← progressStep env st
  let st2 : TuiState := { st with model := { m with progressBars := r.1 }, resetProgress := r.2.1 }
  if 0 < m.spinnersCount then do
    let _ ← checkIndex m.spinnersCount m.pkgIdx
    Except.ok (st2, r.2.2.toList ++ [Cmd.spinnerTick, Cmd.tick])
  else
    Except.ok (st2, r.2.2.toList ++ [Cmd.tick])

/-- The `tickMsg` case of `Model.Update` (tui.go lines 124-182). -/
def tickUpdate (env : String → Option DeployedPackage) (st : TuiState) :
    Except GoErr (TuiState × List Cmd) := do
  let m := st.model
  if (m.complete.length : Int) > m.pkgIdx then do
    let isComplete ← goGet m.complete m.pkgIdx
    if isComplete then completeBranch st else runningBranch env st
  else runningBranch env st

/-- The `string` case of `Model.Update` (tui.go lines 217-244): the wire
protocol `"<kind>:<value>"`. Each branch indexes field 1 of the split,
panicking when it is absent; `idx:<i>` also appends a fresh progress bar
(initial percent 0) and a fresh spinner. -/
def strUpdate (env : String → Option DeployedPackage) (st : TuiState) (s : String) :
    Except GoErr (TuiState × List Cmd) := do
  let m := st.model
  let parts := splitColon s
  let head ← goGet parts 0
  if head = tagPackage then do
    let pkgName ← goGet parts 1
    let reset := if deployedNonNilNonZero (env pkgName) then true else st.resetProgress
    let m2 := { m with pkgNames := m.pkgNames ++ [pkgName] }
    Except.ok ({ st with model := m2, resetProgress := reset }, [])
  else if head = tagTotalComponents then do
    let v ← goGet parts 1
    match goAtoi v with
    | some cnt =>
      Except.ok ({ st with model :=
        { m with totalComponentsPerPkg := m.totalComponentsPerPkg ++ [cnt] } }, [])
    | none => Except.ok (st, [])
  else if head = tagTotalPackages then do
    let v ← goGet parts 1
    match goAtoi v with
    | some cnt => Except.ok ({ st with model := { m with totalPkgs := cnt } }, [])
    | none => Except.ok (st, [])
  else if head = tagIdx then do
    let v ← goGet parts 1
    match goAtoi v with
    | some cnt =>
      Except.ok ({ st with model :=
        { m with pkgIdx := cnt,
                 progressBars := m.progressBars ++ [0],
                 spinnersCount := m.spinnersCount + 1 } }, [])
    | none => Except.ok (st, [])
  else if head = tagComplete then
    Except.ok ({ st with model := { m with complete := m.complete ++ [true] } }, [])
  else Except.ok (st, [])

/-- `Model.Update` (tui.go lines 107-249). The surrounding `select` first
drains a pending fatal error — showing the failure spinner and returning
`Sequence(spinnerCmd, pause(), tea.Quit)` — and otherwise dispatches on the
message. `env` is the external deployed-state query at this instant. -/
def update (env : String → Option DeployedPackage) (st : TuiState) (msg : Msg) :
    Except GoErr (TuiState × List Cmd) :=
  if st.fatalPending then do
    let _ ← checkIndex st.model.spinnersCount st.model.pkgIdx
    Except.ok ({ st with fatalPending := false }, [Cmd.spinnerTick, Cmd.pause, Cmd.quit])
  else
    match msg with
    | Msg.frame => do
      let _ ← checkIndex st.model.progressBars.length st.model.pkgIdx
      Except.ok (st, [Cmd.frameAnim])
    | Msg.tick => tickUpdate env st
    | Msg.key s =>
      if s = keyYLow ∨ s = keyYUp then
        let m := if !st.model.confirmed then { st.model with confirmed := true } else st.model
        Except.ok ({ st with model := m }, [Cmd.sendDeployOp])
      else if s = keyNLow ∨ s = keyNUp then
        let m := if !st.model.confirmed then { st.model with confirmed := false } else st.model
        Except.ok ({ st with model := m }, [])
      else if s = keyCtrlC ∨ s = keyQ then
        Except.ok (st, [Cmd.quit])
      else Except.ok (st, [])
    | Msg.op =>
      if st.model.confirmed then Except.ok (st, [Cmd.tick, Cmd.runDeploy])
      else Except.ok (st, [])
    | Msg.str s => strUpdate env st s

/-- Drives `update` over a message sequence with a fixed deployed-state
environment, collecting the commands returned for each message. -/
def runMsgs (env : String → Option DeployedPackage) :
    TuiState → List Msg → Except GoErr (TuiState × List (List Cmd))
  | st, [] => Except.ok (st, [])
  | st, msg :: rest => do
    let r ← update env st msg
    let r2 ← runMsgs env r.1 rest
    Except.ok (r2.1, r.2 :: r2.2)

/-- `InitModel` (tui.go lines 63-76): fresh model with `confirmed` taken
from the `--confirm` configuration. -/
def InitModel (confirm : Bool) : Model :=
  { pkgNames := [], pkgIdx := 0, totalComponentsPerPkg := [], totalPkgs := 0,
    confirmed := confirm, complete := [], done := false, progressBars := [],
    spinnersCount := 0 }

/-- The run state at the start of a confirmed deploy. -/
def initState (confirm : Bool) : TuiState :=
  { model := InitModel confirm, resetProgress := false, fatalPending := false }

lemma checkIndex_ok (len : Nat) (i : Int) (h : 0 ≤ i ∧ i.toNat < len) :
    checkIndex len i = Except.ok () := by
  unfold checkIndex
  rw [if_pos h]

lemma goGet_zero_cons {α : Type} (a : α) (l : List α) :
    goGet (a :: l) 0 = Except.ok a := by
  unfold goGet
  rw [dif_pos ⟨le_refl 0, by simp⟩]
  rfl

/-- Bind of a successful `Except` computation. -/
lemma exc_bind_ok {α β : Type} (a : α) (f : α → Except GoErr β) :
    (Except.ok a >>= f) = f a := rfl

lemma goGet_one_cons {α : Type} (a b : α) (l : List α) :
    goGet (a :: b :: l) 1 = Except.ok b := by
  unfold goGet
  rw [dif_pos ⟨by norm_num, by simp⟩]
  rfl

lemma goGet_natCast (xs : List String) (i : Nat) (h : i < xs.length) :
    goGet xs (i : Int) = Except.ok (xs.getD i emptyStr) := by
  unfold goGet
  rw [dif_pos ⟨Int.ofNat_nonneg i, by simpa using h⟩]
  simp [List.getD_eq_getElem?_getD, List.getElem?_eq_getElem h]

lemma clamp01_zero : clamp01 0 = 0 := by norm_num [clamp01]

lemma clamp01_hundred : clamp01 100 = 1 := by norm_num [clamp01]

lemma clamp01_of_le (p : ℚ) (h0 : 0 ≤ p) (h1 : p ≤ 1) : clamp01 p = p := by
  unfold clamp01
  rw [min_eq_right h1, max_eq_right h0]

lemma ite_checkIndex_ok (c : Prop) [Decidable c] (len : Nat) (i : Int)
    (h : 0 ≤ i ∧ i.toNat < len) :
    (if c then checkIndex len i else Except.ok ()) = Except.ok () := by
  split
  · exact checkIndex_ok len i h
  · rfl

/-- The run state while a single package (index 0) with `n` total components
is being deployed: its name is known, its bar (current target `b`) and
spinner exist, and no `complete` entry has arrived for it. -/
def singlePkgState (name : String) (n : Int) (b : ℚ) (t : Int) (conf reset : Bool) : TuiState :=
  { model := { pkgNames := [name], pkgIdx := 0, totalComponentsPerPkg := [n], totalPkgs := t,
               confirmed := conf, complete := [], done := false, progressBars := [b],
               spinnersCount := 1 },
    resetProgress := reset, fatalPending := false }

def pkgMsgZ : String := "package:podinfo"
def tcMsg3 : String := "totalComponents:3"
def idxMsg0 : String := "idx:0"

/-- A deployed-state record showing three applied components. -/
def dp3 : DeployedPackage := { deployedComponents := ["c1", "c2", "c3"] }

/-- A deployed-state query that always finds `dp3`. -/
def env3 : String → Option DeployedPackage := fun _ => some dp3

/-- C2 (counterexample): a package with n = 3 components whose deployed-state
record already shows k = 3 applied components (a fully resumed package, so k
is not below any prior expectation). Processing its `package`,
`totalComponents` and `idx` events and then the first tick: the package event
set the reset flag, so the first progress percentage set on a tick is 0, not
k/n = 1 — contradicting the claim. -/
theorem C2_counterexample :
    runMsgs env3 (initState true)
        [Msg.str pkgMsgZ, Msg.str tcMsg3, Msg.str idxMsg0, Msg.tick] =
      Except.ok (singlePkgState nameZ 3 0 0 true false,
        [[], [], [], [Cmd.setPercent 0 0, Cmd.spinnerTick, Cmd.tick]]) ∧
    (0 : ℚ) ≠ (3 : ℚ) / (3 : ℚ) := by
  constructor
  · rfl
  · norm_num

/-- C2 (amended): for a package with `n` total components whose deployed-state
record shows `k ≥ 1` components already applied (`k ≤ n`), the first progress
percentage set on a tick is the reset baseline 0 — the package having been
detected as previously deployed set the reset flag — and that first tick also
clears the flag (the record shows at least one component), so the percentage
set on the second tick equals k/n. -/
theorem C2_amended (env : String → Option DeployedPackage) (name : String)
    (dp : DeployedPackage) (n t : Int) (b : ℚ) (k : Nat)
    (henv : env name = some dp) (hk : dp.deployedComponents.length = k)
    (hk1 : 1 ≤ k) (hkn : (k : Int) ≤ n) :
    update env (singlePkgState name n b t true true) Msg.tick =
      Except.ok (singlePkgState name n 0 t true false,
        [Cmd.setPercent 0 0, Cmd.spinnerTick, Cmd.tick]) ∧
    update env (singlePkgState name n 0 t true false) Msg.tick =
      Except.ok (singlePkgState name n ((k : ℚ) / (n : ℚ)) t true false,
        [Cmd.setPercent 0 ((k : ℚ) / (n : ℚ)), Cmd.spinnerTick, Cmd.tick]) := by
  have hn : (0 : Int) < n := lt_of_lt_of_le (by exact_mod_cast hk1) hkn
  have hnq : (0 : ℚ) < (n : ℚ) := by exact_mod_cast hn
  have hpct0 : (0 : ℚ) ≤ (k : ℚ) / (n : ℚ) := by positivity
  have hpct1 : (k : ℚ) / (n : ℚ) ≤ 1 := by
    rw [div_le_one hnq]
    exact_mod_cast hkn
  constructor
  · simp [update, tickUpdate, runningBranch, progressStep, resetBranch, singlePkgState,
      goGet_zero_cons, exc_bind_ok, checkIndex_ok 1 0 (by decide), clamp01_zero, henv, hk,
      hn, hk1, deployedNonNilAtLeastOne]
  · simp [update, tickUpdate, runningBranch, progressStep, resetBranch, singlePkgState,
      goGet_zero_cons, exc_bind_ok, checkIndex_ok 1 0 (by decide), ite_checkIndex_ok,
      henv, hk, hn, clamp01_of_le _ hpct0 hpct1]

/-- C2 (amended, witness): the amended behaviour at the concrete resumed
package of `C2_counterexample` (k = 3 of n = 3). -/
theorem C2_amended_witness :
    update env3 (singlePkgState nameZ 3 0 0 true true) Msg.tick =
      Except.ok (singlePkgState nameZ 3 0 0 true false,
        [Cmd.setPercent 0 0, Cmd.spinnerTick, Cmd.tick]) ∧
    update env3 (singlePkgState nameZ 3 0 0 true false) Msg.tick =
      Except.ok (singlePkgState nameZ 3 ((3 : ℚ) / (3 : ℚ)) 0 true false,
        [Cmd.setPercent 0 ((3 : ℚ) / (3 : ℚ)), Cmd.spinnerTick, Cmd.tick]) :=
  C2_amended env3 nameZ dp3 3 0 0 3 rfl rfl (by decide) (by decide)

/-- C3: (i) when the `package:<name>` event arrives and the deployed-state
record is non-nil with a nonzero component count, the reset flag is set;
(ii) on any tick during that package's deployment while the flag is set, the
progress bar is set to 0 % (so it cannot increase while the flag stays set),
and the flag is cleared on exactly the ticks where the record again shows at
least one deployed component. -/
theorem C3_theorem (env envTick : String → Option DeployedPackage) (s name : String)
    (st0 : TuiState) (n t : Int) (b : ℚ)
    (hf : st0.fatalPending = false)
    (hsplit : splitColon s = [tagPackage, name])
    (hdp : deployedNonNilNonZero (env name) = true)
    (hn : 0 < n) :
    (∃ m2 : Model,
      update env st0 (Msg.str s) =
        Except.ok ({ st0 with model := m2, resetProgress := true }, []) ∧
      m2.pkgNames = st0.model.pkgNames ++ [name]) ∧
    update envTick (singlePkgState name n b t true true) Msg.tick =
      Except.ok (singlePkgState name n 0 t true
          (!(deployedNonNilAtLeastOne (envTick name))),
        [Cmd.setPercent 0 0, Cmd.spinnerTick, Cmd.tick]) := by
  constructor
  · refine ⟨{ st0.model with pkgNames := st0.model.pkgNames ++ [name] }, ?_, rfl⟩
    simp [update, hf, strUpdate, hsplit, goGet_zero_cons, goGet_one_cons, exc_bind_ok, hdp]
  · cases hdpt : envTick name with
    | none =>
      simp [update, tickUpdate, runningBranch, progressStep, resetBranch, singlePkgState,
        goGet_zero_cons, exc_bind_ok, checkIndex_ok 1 0 (by decide), clamp01_zero, hdpt,
        hn, deployedNonNilAtLeastOne]
    | some dp =>
      cases hb : deployedNonNilAtLeastOne (some dp) with
      | false =>
        simp [update, tickUpdate, runningBranch, progressStep, resetBranch, singlePkgState,
          goGet_zero_cons, exc_bind_ok, checkIndex_ok 1 0 (by decide), clamp01_zero, hdpt,
          hb, hn]
      | true =>
        simp [update, tickUpdate, runningBranch, progressStep, resetBranch, singlePkgState,
          goGet_zero_cons, exc_bind_ok, checkIndex_ok 1 0 (by decide), clamp01_zero, hdpt,
          hb, hn]

/-- C3 (witness): the concrete resumed package of `C2_counterexample`
arriving while a prior record shows three components, then a reset tick
during which the record still shows them (the flag clears). -/
theorem C3_theorem_witness :
    (∃ m2 : Model, update env3 (initState true) (Msg.str pkgMsgZ) =
        Except.ok ({ initState true with model := m2, resetProgress := true }, []) ∧
      m2.pkgNames = (initState true).model.pkgNames ++ [nameZ]) ∧
    update env3 (singlePkgState nameZ 3 0 0 true true) Msg.tick =
      Except.ok (singlePkgState nameZ 3 0 0 true
          (!(deployedNonNilAtLeastOne (env3 nameZ))),
        [Cmd.setPercent 0 0, Cmd.spinnerTick, Cmd.tick]) :=
  C3_theorem env3 env3 pkgMsgZ nameZ (initState true) 3 0 0 rfl (by decide) (by decide)
    (by decide)

/-- Observable actions of a whole `uds deploy` run, as performed by the
deploy goroutine and the command wrapper: the call to `bndlClient.Deploy()`,
a call to `bndlClient.ClearPaths()`, the send on `fatalChan`, and the return
of `Program.Run` after the TUI quits. -/
inductive RunEvent
  | deployCall
  | clearPaths
  | fatalSend
  | programReturn
deriving DecidableEq, Repr

/-- The `deployCmd` closure of the `operation` branch of `Model.Update`
(tui.go lines 203-212): run `Deploy`; if it returns an error, call
`ClearPaths` and then send the error on `fatalChan`. -/
def deployClosureEvents (deployFails : Bool) : List RunEvent :=
  if deployFails then [RunEvent.deployCall, RunEvent.clearPaths, RunEvent.fatalSend]
  else [RunEvent.deployCall]

/-- The bundle deploy command (`deployCmd` in the `cmd` package, part_002
lines 73-113): `defer bndlClient.ClearPaths()`, then run the TUI program —
whose deploy goroutine is `deployClosureEvents` — until it quits; the
deferred `ClearPaths` runs when `Run` returns. -/
def deployCmdRunEvents (deployFails : Bool) : List RunEvent :=
  deployClosureEvents deployFails ++ [RunEvent.programReturn, RunEvent.clearPaths]

/-- How many times `ClearPaths` is invoked during a run. -/
def clearPathsCount (evs : List RunEvent) : Nat :=
  (evs.filter (fun e => decide (e = RunEvent.clearPaths))).length

/-- C6 (counterexample): on the failure path `ClearPaths` is invoked twice —
once by the deploy goroutine before the fatal error is signalled and once by
the command's deferred cleanup after the program quits — not exactly once as
the claim states. -/
theorem C6_counterexample :
    clearPathsCount (deployCmdRunEvents true) = 2 ∧ (2 : Nat) ≠ 1 := by decide

/-- C6 (amended): if the external `Deploy` operation fails, the run-loop
drains the fatal error and returns only the failure spinner, the pause and
`tea.Quit` — no further deploy work and no further tick is scheduled, so no
subsequent package is attempted — and `ClearPaths` is invoked exactly twice
on that failure path: by the deploy goroutine before the fatal error is
signalled, and by the command's deferred cleanup after the program returns
(the cleanup is idempotent, so the effect is a single cleanup). -/
theorem C6_amended (env : String → Option DeployedPackage) (st : TuiState) (msg : Msg)
    (hfatal : st.fatalPending = true)
    (hspin : 0 ≤ st.model.pkgIdx ∧ st.model.pkgIdx.toNat < st.model.spinnersCount) :
    update env st msg =
      Except.ok ({ st with fatalPending := false }, [Cmd.spinnerTick, Cmd.pause, Cmd.quit]) ∧
    Cmd.runDeploy ∉ [Cmd.spinnerTick, Cmd.pause, Cmd.quit] ∧
    Cmd.tick ∉ [Cmd.spinnerTick, Cmd.pause, Cmd.quit] ∧
    Cmd.quit ∈ [Cmd.spinnerTick, Cmd.pause, Cmd.quit] ∧
    deployCmdRunEvents true =
      [RunEvent.deployCall, RunEvent.clearPaths, RunEvent.fatalSend,
       RunEvent.programReturn, RunEvent.clearPaths] ∧
    clearPathsCount (deployCmdRunEvents true) = 2 := by
  refine ⟨?_, by decide, by decide, by decide, by decide, by decide⟩
  simp [update, hfatal, checkIndex_ok _ _ hspin, exc_bind_ok]

/-- C6 (amended, witness): the failure path at a concrete run state. -/
theorem C6_amended_witness :
    update env3 { singlePkgState nameZ 3 0 0 true false with fatalPending := true } Msg.tick =
      Except.ok ({ { singlePkgState nameZ 3 0 0 true false with fatalPending := true } with
          fatalPending := false }, [Cmd.spinnerTick, Cmd.pause, Cmd.quit]) ∧
    Cmd.runDeploy ∉ [Cmd.spinnerTick, Cmd.pause, Cmd.quit] ∧
    Cmd.tick ∉ [Cmd.spinnerTick, Cmd.pause, Cmd.quit] ∧
    Cmd.quit ∈ [Cmd.spinnerTick, Cmd.pause, Cmd.quit] ∧
    deployCmdRunEvents true =
      [RunEvent.deployCall, RunEvent.clearPaths, RunEvent.fatalSend,
       RunEvent.programReturn, RunEvent.clearPaths] ∧
    clearPathsCount (deployCmdRunEvents true) = 2 :=
  C6_amended env3 { singlePkgState nameZ 3 0 0 true false with fatalPending := true }
    Msg.tick rfl (by decide)

/-- C7 (counterexample): with the session awaiting confirmation, pressing
"n" leaves the state unchanged and returns no command at all — in
particular no `tea.Quit` — so the explicit negative answer does not
terminate the program, contradicting the claim. -/
theorem C7_counterexample :
    update (fun _ => none) (initState false) (Msg.key keyNLow) =
      Except.ok (initState false, []) ∧
    Cmd.quit ∉ ([] : List Cmd) := by
  constructor
  · rfl
  · simp

/-- C7 (amended): while awaiting confirmation, pressing "n" or "N" leaves
the model unconfirmed and issues no command — the session never transitions
to Running (even a stray `DeployOp` message starts nothing while
unconfirmed) — but it does not exit the program either; only "ctrl+c" or
"q" (interrupt) terminate the session. -/
theorem C7_amended (env : String → Option DeployedPackage) (st : TuiState)
    (hf : st.fatalPending = false) (hc : st.model.confirmed = false) :
    update env st (Msg.key keyNLow) = Except.ok (st, []) ∧
    update env st (Msg.key keyNUp) = Except.ok (st, []) ∧
    update env st (Msg.key keyCtrlC) = Except.ok (st, [Cmd.quit]) ∧
    update env st (Msg.key keyQ) = Except.ok (st, [Cmd.quit]) ∧
    update env st Msg.op = Except.ok (st, []) := by
  obtain ⟨⟨p1, p2, p3, p4, p5, p6, p7, p8, p9⟩, rs, fp⟩ := st
  simp only at hc hf
  subst hc
  subst hf
  refine ⟨?_, ?_, ?_, ?_, ?_⟩ <;> rfl

/-- C7 (amended, witness): the amended behaviour at the fresh unconfirmed
session. -/
theorem C7_amended_witness :
    update (fun _ => none) (initState false) (Msg.key keyNLow) =
      Except.ok (initState false, []) ∧
    update (fun _ => none) (initState false) (Msg.key keyNUp) =
      Except.ok (initState false, []) ∧
    update (fun _ => none) (initState false) (Msg.key keyCtrlC) =
      Except.ok (initState false, [Cmd.quit]) ∧
    update (fun _ => none) (initState false) (Msg.key keyQ) =
      Except.ok (initState false, [Cmd.quit]) ∧
    update (fun _ => none) (initState false) Msg.op =
      Except.ok (initState false, []) :=
  C7_amended (fun _ => none) (initState false) rfl rfl

lemma successNamesLoop_ok (names : List String) :
    ∀ (fuel start : Nat), start + fuel ≤ names.length →
      successNamesLoop names fuel (start : Int) =
        Except.ok ((List.range fuel).map (fun j => names.getD (start + j) emptyStr)) := by
  intro fuel
  induction fuel with
  | zero => intro start h; rfl
  | succ f ih =>
    intro start h
    have h1 : start < names.length := by omega
    have h2 : ((start : Int) + 1) = ((start + 1 : Nat) : Int) := by push_cast; ring
    rw [successNamesLoop, goGet_natCast names start h1, exc_bind_ok, h2,
      ih (start + 1) (by omega), exc_bind_ok]
    rw [List.range_succ_eq_map]
    simp only [List.map_cons, List.map_map, Nat.add_zero]
    have h3 : ((fun j => names.getD (start + 1 + j) emptyStr) =
        (fun j => names.getD (start + j.succ) emptyStr)) := by
      funext j
      congr 1
      omega
    rw [Function.comp_def, h3]

lemma successNames_ok (names : List String) (total : Int)
    (h : total.toNat ≤ names.length) :
    successNames names total =
      Except.ok ((List.range total.toNat).map (fun j => names.getD j emptyStr)) := by
  unfold successNames
  have := successNamesLoop_ok names total.toNat 0 (by omega)
  simpa using this

/-- C8: when a tick observes the last package's completion flag, the model is
marked done and the returned command sequence is exactly: push the bar to
100 %, the spinner update, a tick, the separator line, then one
"Package <name> deployed" notification for every package of the session in
package index order 0..totalPkgs-1, and only then `tea.Quit`. -/
theorem C8_theorem (env : String → Option DeployedPackage) (st : TuiState)
    (hf : st.fatalPending = false)
    (hlen : (st.model.complete.length : Int) > st.model.pkgIdx)
    (hcomp : goGet st.model.complete st.model.pkgIdx = Except.ok true)
    (hbar : 0 ≤ st.model.pkgIdx ∧ st.model.pkgIdx.toNat < st.model.progressBars.length)
    (hspin : 0 ≤ st.model.pkgIdx ∧ st.model.pkgIdx.toNat < st.model.spinnersCount)
    (hlast : st.model.pkgIdx = st.model.totalPkgs - 1)
    (hnames : st.model.totalPkgs.toNat ≤ st.model.pkgNames.length) :
    ∃ st2 : TuiState,
      update env st Msg.tick =
        Except.ok (st2,
          [Cmd.setPercent st.model.pkgIdx 1, Cmd.spinnerTick, Cmd.tick,
           Cmd.println dividerLine] ++
          (List.range st.model.totalPkgs.toNat).map
            (fun i => Cmd.println
              (msgDeployedPre ++ st.model.pkgNames.getD i emptyStr ++ msgDeployedSuf)) ++
          [Cmd.quit]) ∧
      st2.model.done = true := by
  refine ⟨{ st with model := { st.model with done := true, progressBars := st.model.progressBars.set st.model.pkgIdx.toNat 1 } }, ?_, rfl⟩
  have hcond : (st.model.pkgIdx = st.model.totalPkgs - 1) = True := by simp [hlast]
  simp only [update, hf, Bool.false_eq_true, if_false, tickUpdate, hlen, if_true,
    hcomp, exc_bind_ok, completeBranch, checkIndex_ok _ _ hbar, checkIndex_ok _ _ hspin,
    hcond, clamp01_hundred, successNames_ok st.model.pkgNames st.model.totalPkgs hnames]
  simp [List.map_map, Function.comp_def]

def nameW : String := "nginx"

/-- The run state just after the second of two packages completes. -/
def doneState2 : TuiState :=
  { model := { pkgNames := [nameZ, nameW], pkgIdx := 1, totalComponentsPerPkg := [3, 2],
               totalPkgs := 2, confirmed := true, complete := [true, true], done := false,
               progressBars := [1, 0], spinnersCount := 2 },
    resetProgress := false, fatalPending := false }

/-- C8 (witness): the success batch at a concrete two-package session. -/
theorem C8_theorem_witness :
    ∃ st2 : TuiState,
      update (fun _ => none) doneState2 Msg.tick =
        Except.ok (st2,
          [Cmd.setPercent 1 1, Cmd.spinnerTick, Cmd.tick, Cmd.println dividerLine] ++
          (List.range 2).map
            (fun i => Cmd.println
              (msgDeployedPre ++ [nameZ, nameW].getD i emptyStr ++ msgDeployedSuf)) ++
          [Cmd.quit]) ∧
      st2.model.done = true :=
  C8_theorem (fun _ => none) doneState2 rfl (by decide) rfl (by decide) (by decide) rfl
    (by decide)

/-- C9: `GetDeployedPackage` returns the nil record when the k8s secret
lookup fails, but when the secret exists and its data fails to unmarshal the
code calls `panic(0)` and aborts instead of treating the failure as "no
prior state". -/
theorem C9_theorem :
    GetDeployedPackage none = Except.ok none ∧
    GetDeployedPackage (some none) = Except.error GoErr.panicZero :=
  ⟨rfl, rfl⟩

/-- C10: the string message "package" — a recognized tag with no colon —
splits into a single field, and the handler's unconditional read of field 1
panics with an index-out-of-range instead of ignoring the malformed
message. -/
theorem C10_theorem :
    splitColon tagPackage = [tagPackage] ∧
    update (fun _ => none) (initState true) (Msg.str tagPackage) =
      Except.error GoErr.indexOutOfRange :=
  ⟨by decide, rfl⟩

end UDS
